import Mathlib

/-!
Verification of the Overcooked demo server's session-lifecycle engine
(`server/game.py`, `server/app.py`, `server/utils.py`) against its
natural-language specification.

The Python code is shallowly embedded: Python `Queue` objects become
explicit functional queues, the per-session mutable object becomes the
`OCGame` record, the module-level registries of `app.py` become the
`ServerState` record, and the external collaborators (the Overcooked
environment engine and the policy providers) are parameters of the
functions that invoke them.  Time (`time.time()`) is passed in as an
explicit `now` parameter, modelled in whole seconds; the only
sub-second quantity in the sources, the tutorial reset pause of
1 millisecond, rounds to zero seconds in this embedding.
-/

namespace OvercookedServer

/-- Embeds `Game.Status` (game.py lines 80-85). -/
inductive Status
  | done
  | active
  | reset
  | inactive
  | error
deriving DecidableEq, Repr

/-- Embeds the Overcooked actions (`Action.STAY`, the four `Direction`s and
`Action.INTERACT`) that `action_to_overcooked_action` maps to
(game.py lines 377-384). -/
inductive Act
  | stay
  | north
  | south
  | west
  | east
  | interact
deriving DecidableEq, Repr

/-- A player slot: either the `"EMPTY"` placeholder (game.py line 78) or a
participant id. -/
inductive Slot
  | empty
  | player (pid : String)
deriving DecidableEq, Repr

/-- Embeds a Python `queue.Queue`: FIFO with a `maxsize` bound, where a
`maxsize` that is zero or negative means unbounded. -/
structure BQueue (α : Type) where
  maxsize : Int
  items : List α
deriving DecidableEq, Repr

/-- Embeds `Queue.full()`: true when `0 < maxsize` and the buffer holds at
least `maxsize` items. -/
def bqFull (q : BQueue α) : Bool :=
  decide (0 < q.maxsize) && decide (q.maxsize ≤ (q.items.length : Int))

/-- Embeds a successful `Queue.put`: append at the back. -/
def bqPut (q : BQueue α) (a : α) : BQueue α :=
  { q with items := q.items ++ [a] }

/-- Embeds `Queue.get(block=False)`: `none` when empty (the `Empty`
exception), otherwise the front item and the remaining queue. -/
def bqGet (q : BQueue α) : Option (α × BQueue α) :=
  match q.items with
  | [] => none
  | a :: rest => some (a, { q with items := rest })

/-- Embeds `LifoQueue.put` on an NPC state channel
(`npc_state_queues[npc_id].put(state)`, game.py lines 521, 599, 608):
the newest state goes on top of the stack. -/
def npcStatePut (q : List σ) (s : σ) : List σ := s :: q

/-- Embeds `LifoQueue.get` in `npc_policy_consumer` (game.py line 460):
pops the top of the stack, `none` when the consumer would block. -/
def npcStateGet (q : List σ) : Option (σ × List σ) :=
  match q with
  | [] => none
  | x :: rest => some (x, rest)

/-- The sequence of states a policy worker observes over `n` consecutive
non-blocking iterations of the `npc_policy_consumer` loop. -/
def lifoReads : Nat → List σ → List σ
  | 0, _ => []
  | n + 1, q =>
    match npcStateGet q with
    | none => []
    | some (x, rest) => x :: lifoReads n rest

/-- Embeds the mutable state of an `OvercookedGame` instance
(game.py lines 87-99 and 352-421).  `players`, `spectators`,
`pending_actions`, `isActive` come from the `Game` base class; the rest
from `OvercookedGame.__init__`.  The environment state type is the
parameter `σ`; external collaborators (mdp, policies, threads) are not
stored but passed to the operations that call them.  `npc_policy_ids`
embeds the key set of the `npc_policies` dict. -/
structure OCGame (σ : Type) where
  id : Nat
  players : List Slot
  spectators : List String
  pending_actions : List (Option (BQueue Act))
  isActive : Bool
  max_players : Nat
  human_players : List String
  npc_players : List String
  npc_policy_ids : List String
  npc_state_queues : List (String × List σ)
  score : Int
  max_time : Int
  start_time : Int
  curr_tick : Nat
  ticks_per_ai_action : Nat
  layouts : List String
  curr_layout : String
  state : σ
deriving DecidableEq

/-- Embeds `Game.num_players` (game.py lines 310-313): count of non-EMPTY
slots. -/
def num_players (g : OCGame σ) : Nat :=
  (g.players.filter (fun s => s ≠ Slot.empty)).length

/-- Embeds `OvercookedGame.is_full` (game.py lines 464-465). -/
def is_full (g : OCGame σ) : Bool :=
  decide (g.max_players ≤ num_players g)

/-- Embeds `Game.is_empty` (game.py lines 238-242): `not self.num_players`,
i.e. true exactly when the player count is zero. -/
def base_is_empty (g : OCGame σ) : Bool :=
  num_players g == 0

/-- Embeds `OvercookedGame.is_empty` (game.py lines 472-478):
`super().is_empty() or not self.spectators and not self.human_players`,
with Python precedence binding `and` tighter than `or`. -/
def oc_is_empty (g : OCGame σ) : Bool :=
  base_is_empty g || (g.spectators.isEmpty && g.human_players.isEmpty)

/-- Embeds `OvercookedGame.is_ready` (game.py lines 480-484), where
`Game.is_ready` is `self.is_full()` (game.py lines 123-127). -/
def oc_is_ready (g : OCGame σ) : Bool :=
  is_full g && !(oc_is_empty g)

/-- Embeds `self.players.index(player_id)`: the first slot held by the
given participant, if any. -/
def slotIndex : List Slot → String → Option Nat
  | [], _ => none
  | s :: rest, pid =>
    if s = Slot.player pid then some 0
    else (slotIndex rest pid).map (fun n => n + 1)

/-- Outcome of `Game.enqueue_action` in the sequential embedding:
`ignored` when the method returns without touching any queue, `enqueued`
when the action was appended, `blocked` when `Queue.put` (called with its
default `block=True`) would suspend the caller because the bounded queue
is full, and `crashed` for paths that raise an unhandled exception. -/
inductive EnqueueOutcome
  | ignored
  | enqueued
  | blocked
  | crashed
deriving DecidableEq, Repr

/-- Embeds `Game.enqueue_action` (game.py lines 205-221): return silently
when inactive or when the participant holds no slot; otherwise
`self.pending_actions[player_idx].put(action)`.  `put` is called without
`block=False`, so on a full bounded queue it blocks rather than raising
`Full`; the surrounding `except Full` can therefore never fire. -/
def base_enqueue_action (g : OCGame σ) (pid : String) (a : Act) :
    OCGame σ × EnqueueOutcome :=
  if g.isActive = false then (g, EnqueueOutcome.ignored)
  else
    match slotIndex g.players pid with
    | none => (g, EnqueueOutcome.ignored)
    | some i =>
      match g.pending_actions.get? i with
      | some (some q) =>
        if bqFull q then (g, EnqueueOutcome.blocked)
        else
          ({ g with pending_actions := g.pending_actions.set i (some (bqPut q a)) },
           EnqueueOutcome.enqueued)
      | _ => (g, EnqueueOutcome.crashed)

/-- Embeds the `action_to_overcooked_action` dict (game.py lines 377-384);
`none` is the `KeyError` on an unknown client action name. -/
def action_to_overcooked_action : String → Option Act
  | "STAY" => some Act.stay
  | "UP" => some Act.north
  | "DOWN" => some Act.south
  | "LEFT" => some Act.west
  | "RIGHT" => some Act.east
  | "SPACE" => some Act.interact
  | _ => none

/-- Embeds `OvercookedGame.enqueue_action` (game.py lines 550-555):
translate the client action name, then defer to the base method. -/
def oc_enqueue_action (g : OCGame σ) (pid : String) (a : String) :
    OCGame σ × EnqueueOutcome :=
  match action_to_overcooked_action a with
  | none => (g, EnqueueOutcome.crashed)
  | some act => base_enqueue_action g pid act

/-- Embeds one iteration of the draining loop in
`OvercookedGame.apply_actions` (game.py lines 496-506) for one slot with
its pending queue.  A human-held slot does a non-blocking get and keeps
the default `Action.STAY` when the queue is empty; any other slot does a
blocking get, which in this sequential embedding yields `none` when no
action is available (the tick would suspend).  A slot whose queue is the
EMPTY placeholder would raise in Python, also `none` here. -/
def drainOne (humans : List String) :
    Slot × Option (BQueue Act) → Option (Act × Option (BQueue Act))
  | (Slot.player pid, some q) =>
    if humans.contains pid then
      match bqGet q with
      | some (a, q2) => some (a, some q2)
      | none => some (Act.stay, some q)
    else
      match bqGet q with
      | some (a, q2) => some (a, some q2)
      | none => none
  | _ => none

/-- Embeds the joint-action assembly loop of `OvercookedGame.apply_actions`
(game.py lines 493-506), producing the joint action together with the
drained pending queues. -/
def assembleJoint (humans : List String) :
    List (Slot × Option (BQueue Act)) →
    Option (List Act × List (Option (BQueue Act)))
  | [] => some ([], [])
  | p :: rest =>
    match drainOne humans p with
    | none => none
    | some (a, q2) =>
      match assembleJoint humans rest with
      | none => none
      | some (actions, queues) => some (a :: actions, q2 :: queues)

/-- Embeds `for npc_id in self.npc_policies:
self.npc_state_queues[npc_id].put(state)` (game.py lines 520-521, 598-599,
607-608): push a state onto every policy channel. -/
def pushStateToNpcs (ids : List String) (qs : List (String × List σ))
    (s : σ) : List (String × List σ) :=
  qs.map (fun p => if ids.contains p.1 then (p.1, npcStatePut p.2 s) else p)

/-- Embeds `OvercookedGame.apply_actions` (game.py lines 490-548): assemble
the joint action, invoke the environment engine once
(`self.mdp.get_state_transition`), push the new state to the NPC channels
on the configured tick multiples, and add the summed sparse reward to the
score.  The engine is the external collaborator, passed in as a function
returning the next state and the per-agent sparse rewards
(`info["sparse_reward_by_agent"]`).  Returns the updated game and the
reward list; `none` when the assembly would block or crash. -/
def oc_apply_actions (engine : σ → List Act → σ × List Int)
    (g : OCGame σ) : Option (OCGame σ × List Int) :=
  match assembleJoint g.human_players (g.players.zip g.pending_actions) with
  | none => none
  | some (ja, queues) =>
    let s2 := (engine g.state ja).1
    let rewards := (engine g.state ja).2
    let nq :=
      if g.curr_tick % g.ticks_per_ai_action == 0 then
        pushStateToNpcs g.npc_policy_ids g.npc_state_queues s2
      else g.npc_state_queues
    some ({ g with
              state := s2,
              pending_actions := queues,
              npc_state_queues := nq,
              score := g.score + rewards.sum }, rewards)

/-- Embeds `OvercookedGame._curr_game_over` (game.py lines 423-425):
`time() - self.start_time >= self.max_time`, with the wall clock passed
in as `now`. -/
def currGameOver (now : Int) (g : OCGame σ) : Bool :=
  decide (g.max_time ≤ now - g.start_time)

/-- Embeds `OvercookedGame.is_finished` (game.py lines 467-470):
`not self.layouts and self._curr_game_over()`. -/
def oc_is_finished (now : Int) (g : OCGame σ) : Bool :=
  g.layouts.isEmpty && currGameOver now g

/-- Embeds `OvercookedGame.needs_reset` (game.py lines 427-430). -/
def oc_needs_reset (now : Int) (g : OCGame σ) : Bool :=
  currGameOver now g && !(oc_is_finished now g)

/-- Embeds `Game.clear_pending_actions` (game.py lines 301-308): empty the
queue of every occupied slot. -/
def clearPending (players : List Slot)
    (qs : List (Option (BQueue Act))) : List (Option (BQueue Act)) :=
  (players.zip qs).map (fun p =>
    match p with
    | (Slot.empty, q) => q
    | (Slot.player _, some q) => some { q with items := [] }
    | (Slot.player _, none) => none)

/-- Embeds `OvercookedGame.deactivate` (game.py lines 604-615): clear the
active flag, push one final state onto every NPC channel to unblock the
workers, join the worker threads (a no-op in the sequential embedding),
and clear all pending action queues. -/
def oc_deactivate (g : OCGame σ) : OCGame σ :=
  let g1 := { g with isActive := false }
  { g1 with
      npc_state_queues :=
        pushStateToNpcs g1.npc_policy_ids g1.npc_state_queues g1.state,
      pending_actions := clearPending g1.players g1.pending_actions }

/-- The participant ids currently holding slots (`set(self.players)` minus
the EMPTY placeholder). -/
def playerIds (ps : List Slot) : List String :=
  ps.filterMap (fun s =>
    match s with
    | Slot.player p => some p
    | Slot.empty => none)

/-- Equality of the underlying finite sets of two id lists. -/
def listSetEq (a b : List String) : Bool :=
  a.all (fun x => b.contains x) && b.all (fun x => a.contains x)

/-- Embeds the sanity check of `OvercookedGame.activate` (game.py lines
572-574): `self.npc_players.union(self.human_players) == set(self.players)`.
An EMPTY slot would put the placeholder string in `set(self.players)` and
make the check fail. -/
def activateSanity (g : OCGame σ) : Bool :=
  !(g.players.contains Slot.empty) &&
    listSetEq (g.npc_players ++ g.human_players) (playerIds g.players)

/-- Embeds `OvercookedGame.activate` (game.py lines 568-602): set the
active flag, run the sanity check (raise on failure), pop the last layout
with `self.layouts.pop()`, build the start state for it (the mdp is the
external collaborator, abstracted as `startState`), zero the clock, tick
counter and score, and seed every NPC channel with the start state.
`none` models the raised `ValueError` or the `IndexError` of popping an
empty layout list. -/
def oc_activate (startState : String → σ) (now : Int) (g : OCGame σ) :
    Option (OCGame σ) :=
  let g1 := { g with isActive := true }
  if activateSanity g1 = false then none
  else
    match g1.layouts.getLast? with
    | none => none
    | some layout =>
      let st := startState layout
      some { g1 with
               layouts := g1.layouts.dropLast,
               curr_layout := layout,
               state := st,
               start_time := now,
               curr_tick := 0,
               score := 0,
               npc_state_queues :=
                 pushStateToNpcs g1.npc_policy_ids g1.npc_state_queues st }

/-- Embeds `Game.reset` (game.py lines 170-180) combined with
`OvercookedGame.reset` (game.py lines 557-561): raise when inactive
(`none`); return unchanged when already finished (the `DONE` early
return); otherwise deactivate, reactivate, and shift the start time by
`reset_timeout / 1000` seconds.  `finished` is the dynamically dispatched
`is_finished` and `resetTimeoutMs` the dynamically dispatched
`reset_timeout` property. -/
def resetCore (startState : String → σ) (finished : OCGame σ → Bool)
    (resetTimeoutMs : Int) (now : Int) (g : OCGame σ) : Option (OCGame σ) :=
  if g.isActive = false then none
  else if finished g then some g
  else
    match oc_activate startState now (oc_deactivate g) with
    | none => none
    | some g2 => some { g2 with start_time := g2.start_time + resetTimeoutMs / 1000 }

/-- `reset` as dispatched on an `OvercookedGame`: `reset_timeout` is 3000
milliseconds (game.py lines 136-141). -/
def oc_reset (startState : String → σ) (now : Int) (g : OCGame σ) :
    Option (OCGame σ) :=
  resetCore startState (oc_is_finished now) 3000 now g

/-- Embeds the `self.curr_tick += 1` of `OvercookedGame.tick`
(game.py lines 563-566), performed before deferring to `Game.tick`. -/
def bumpTick (g : OCGame σ) : OCGame σ :=
  { g with curr_tick := g.curr_tick + 1 }

/-- The observable result of one `tick()` call: the returned status, the
game object afterwards, and how many times the environment engine was
invoked during the call. -/
structure TickResult (σ : Type) where
  status : Status
  game : OCGame σ
  engineCalls : Nat
deriving DecidableEq

/-- Embeds `OvercookedGame.tick` (game.py lines 563-566) over `Game.tick`
(game.py lines 188-203): bump the tick counter, then return `INACTIVE`
when not active, reset and return `RESET` when `needs_reset()`, and
otherwise apply the pending actions and return `DONE` or `ACTIVE`
according to `is_finished()`.  `none` models an unhandled exception or a
tick that blocks forever. -/
def oc_tick (engine : σ → List Act → σ × List Int)
    (startState : String → σ) (now : Int) (g0 : OCGame σ) :
    Option (TickResult σ) :=
  let g := bumpTick g0
  if g.isActive = false then some ⟨Status.inactive, g, 0⟩
  else if oc_needs_reset now g then
    (oc_reset startState now g).map (fun g2 => ⟨Status.reset, g2, 0⟩)
  else
    (oc_apply_actions engine g).map (fun pr =>
      ⟨if oc_is_finished now pr.1 then Status.done else Status.active,
       pr.1, 1⟩)

/-- Embeds the tutorial-specific mutable state of `OvercookedTutorial`
(game.py lines 675-699) on top of the `OvercookedGame` state. -/
structure TutGame (σ : Type) where
  base : OCGame σ
  curr_phase : Nat
  phase_two_finished : Bool
  phase_two_score : Int
deriving DecidableEq

/-- Embeds `OvercookedTutorial.needs_reset` (game.py lines 705-716). -/
def tut_needs_reset (t : TutGame σ) : Bool :=
  if t.curr_phase == 0 then decide (0 < t.base.score)
  else if t.curr_phase == 1 then decide (0 < t.base.score)
  else if t.curr_phase == 2 then t.phase_two_finished
  else false

/-- Embeds the Python comparison `self.score >= float("inf")`
(game.py line 720): the integer score coerced into `WithTop Int`, where
the float infinity is the top element. -/
def scoreGeInf (score : Int) : Bool :=
  decide ((⊤ : WithTop Int) ≤ (score : WithTop Int))

/-- Embeds `OvercookedTutorial.is_finished` (game.py lines 718-720):
`not self.layouts and self.score >= float("inf")`. -/
def tut_is_finished (g : OCGame σ) : Bool :=
  g.layouts.isEmpty && scoreGeInf g.score

/-- Embeds `OvercookedTutorial.apply_actions` (game.py lines 730-745):
regular joint-action logic, then subtract the AI reward from the score,
and in phase two zero the score and check the exact phase-two reward.
`none` also covers the unpacking error when the engine does not report
exactly two agents. -/
def tut_apply_actions (engine : σ → List Act → σ × List Int)
    (t : TutGame σ) : Option (TutGame σ) :=
  match oc_apply_actions engine t.base with
  | none => none
  | some (b, rewards) =>
    match rewards with
    | [human_reward, ai_reward] =>
      let b2 := { b with score := b.score - ai_reward }
      if t.curr_phase == 2 then
        some { t with
                 base := { b2 with score := 0 },
                 phase_two_finished :=
                   if human_reward == t.phase_two_score then true
                   else t.phase_two_finished }
      else some { t with base := b2 }
    | _ => none

/-- Embeds `OvercookedTutorial.reset` (game.py lines 722-724) where the
dispatched `reset_timeout` is 1 millisecond (game.py lines 701-703) and
the dispatched `is_finished` is the tutorial one: run the inherited reset,
then advance the phase counter. -/
def tut_reset (startState : String → σ) (now : Int) (t : TutGame σ) :
    Option (TutGame σ) :=
  match resetCore startState (fun g => tut_is_finished g) 1 now t.base with
  | none => none
  | some b => some { t with base := b, curr_phase := t.curr_phase + 1 }

/-- Result of one tutorial `tick()` call. -/
structure TutTickResult (σ : Type) where
  status : Status
  game : TutGame σ
  engineCalls : Nat
deriving DecidableEq

/-- `tick()` as dispatched on an `OvercookedTutorial`: the inherited
`OvercookedGame.tick` / `Game.tick` control flow with the tutorial
overrides of `needs_reset`, `reset`, `apply_actions` and `is_finished`. -/
def tut_tick (engine : σ → List Act → σ × List Int)
    (startState : String → σ) (now : Int) (t0 : TutGame σ) :
    Option (TutTickResult σ) :=
  let t := { t0 with base := bumpTick t0.base }
  if t.base.isActive = false then some ⟨Status.inactive, t, 0⟩
  else if tut_needs_reset t then
    (tut_reset startState now t).map (fun t2 => ⟨Status.reset, t2, 0⟩)
  else
    (tut_apply_actions engine t).map (fun t2 =>
      ⟨if tut_is_finished t2.base then Status.done else Status.active,
       t2, 1⟩)

/-- Embeds the module-level registries of `app.py` (lines 50-72):
`FREE_IDS` (a FIFO queue, front of the list is the next id handed out),
`FREE_MAP`, `GAMES`, `ACTIVE_GAMES` and `USER_ROOMS`. -/
structure ServerState (σ : Type) where
  free_ids : List Nat
  free_map : List (Nat × Bool)
  games : List (Nat × OCGame σ)
  active_games : List Nat
  user_rooms : List (String × Nat)
deriving DecidableEq

/-- Embeds `FREE_MAP[id]` lookup; `none` is the `KeyError`. -/
def fmLookup (m : List (Nat × Bool)) (k : Nat) : Option Bool :=
  (m.find? (fun p => p.1 == k)).map Prod.snd

/-- Embeds `FREE_MAP[id] = v`: update in place, insert when absent. -/
def fmSet (m : List (Nat × Bool)) (k : Nat) (v : Bool) :
    List (Nat × Bool) :=
  if (m.find? (fun p => p.1 == k)).isSome then
    m.map (fun p => if p.1 == k then (k, v) else p)
  else m ++ [(k, v)]

/-- Embeds `USER_ROOMS.get(user_id, None)`. -/
def roomsLookup (m : List (String × Nat)) (u : String) : Option Nat :=
  (m.find? (fun p => p.1 == u)).map Prod.snd

/-- Embeds `del USER_ROOMS[user_id]` through `ThreadSafeDict.__delitem__`
(utils.py lines 66-72), which is a no-op when the key is absent. -/
def roomsErase (m : List (String × Nat)) (u : String) :
    List (String × Nat) :=
  m.filter (fun p => !(p.1 == u))

/-- Embeds the eviction loop of `cleanup_game` (app.py lines 148-149):
`for user_id in game.players: leave_curr_room(user_id)`.  The loop runs
over the raw slot list, so an EMPTY slot deletes the placeholder key. -/
def leaveRoomsForPlayers (rooms : List (String × Nat)) :
    List Slot → List (String × Nat)
  | [] => rooms
  | Slot.empty :: rest =>
    leaveRoomsForPlayers (roomsErase rooms "EMPTY") rest
  | Slot.player p :: rest =>
    leaveRoomsForPlayers (roomsErase rooms p) rest

/-- Embeds `del GAMES[game.id]` (no-op when absent, utils.py 66-72). -/
def gamesErase (gs : List (Nat × OCGame σ)) (k : Nat) :
    List (Nat × OCGame σ) :=
  gs.filter (fun p => !(p.1 == k))

/-- Embeds `cleanup_game` (app.py lines 139-159): raise `ValueError` on a
double free (`none`, including the `KeyError` when the id is unknown);
otherwise evict the players from `USER_ROOMS`, mark the id free, return
it to `FREE_IDS`, delete the game from `GAMES` and drop it from
`ACTIVE_GAMES` when present. -/
def cleanup_game (s : ServerState σ) (g : OCGame σ) :
    Option (ServerState σ) :=
  match fmLookup s.free_map g.id with
  | none => none
  | some true => none
  | some false =>
    some { s with
             user_rooms := leaveRoomsForPlayers s.user_rooms g.players,
             free_map := fmSet s.free_map g.id true,
             free_ids := s.free_ids ++ [g.id],
             games := gamesErase s.games g.id,
             active_games :=
               if s.active_games.contains g.id then
                 s.active_games.filter (fun x => !(x == g.id))
               else s.active_games }

/-- The `(game, error)` pair returned by `try_create_game`
(app.py lines 107-136), with the two failure shapes distinguished:
`capacityError` is the `queue.Empty` branch (`RuntimeError("Server at max
capacity")`), `ctorError` the generic `except Exception` branch that
catches a failing constructor (for example a policy load failure) or a
failing `assert`. -/
inductive CreateResult (σ : Type)
  | success (g : OCGame σ)
  | capacityError
  | ctorError
deriving DecidableEq

/-- Embeds `try_create_game` (app.py lines 107-136).  The session
constructor is the parameter `ctor` (`none` models a raising
constructor).  `FREE_IDS.get(block=False)` removes the front id from the
pool before the constructor runs; the failure branches return without
putting it back. -/
def try_create_game (ctor : Nat → Option (OCGame σ)) (s : ServerState σ) :
    ServerState σ × CreateResult σ :=
  match s.free_ids with
  | [] => (s, CreateResult.capacityError)
  | curr_id :: rest =>
    let s1 := { s with free_ids := rest }
    if fmLookup s.free_map curr_id ≠ some true then (s1, CreateResult.ctorError)
    else
      match ctor curr_id with
      | none => (s1, CreateResult.ctorError)
      | some g =>
        ({ s1 with
             games := s1.games ++ [(g.id, g)],
             free_map := fmSet s1.free_map g.id false },
         CreateResult.success g)

/-- Embeds the failure handling of `_create_game` (app.py lines 260-263):
`creation_failed` (with the error description) is emitted exactly when
`try_create_game` did not return a game. -/
def creationFailedEmitted : CreateResult σ → Bool
  | CreateResult.success _ => false
  | CreateResult.capacityError => true
  | CreateResult.ctorError => true

/-- Written from the claim, for comparison with `drainOne`: a slot that
can be drained this tick, namely an occupied slot whose holder is human,
or an occupied automated slot whose queue already holds a decision. -/
def slotReady (humans : List String) :
    Slot × Option (BQueue Act) → Bool
  | (Slot.player pid, some q) => humans.contains pid || !(q.items.isEmpty)
  | _ => false

/-- Written from the claim, for comparison with `drainOne`: the claimed
per-slot draining behaviour.  A human-held slot contributes at most one
queued action, taken without blocking, defaulting to the no-op `STAY` on
an empty queue; an automated-held slot contributes exactly the one action
at the front of its queue. -/
def slotDrained (humans : List String)
    (p : Slot × Option (BQueue Act)) (a : Act)
    (q2 : Option (BQueue Act)) : Prop :=
  match p with
  | (Slot.player pid, some q) =>
    match humans.contains pid with
    | true =>
      (q.items = [] ∧ a = Act.stay ∧ q2 = some q) ∨
      (∃ rest, q.items = a :: rest ∧
        q2 = some { maxsize := q.maxsize, items := rest })
    | false =>
      ∃ rest, q.items = a :: rest ∧
        q2 = some { maxsize := q.maxsize, items := rest }
  | _ => False

/-! Concrete instances used to evaluate the embedded operations. -/

/-- A concrete environment engine: deterministic successor state with
fixed per-agent sparse rewards. -/
def engEx : Nat → List Act → Nat × List Int := fun s _ => (s + 1, [2, 3])

/-- A concrete start-state builder standing in for
`OvercookedGridworld.from_layout_name` plus `get_standard_start_state`. -/
def stEx : String → Nat := fun _ => 0

/-- A concrete session constructor that raises, as `OvercookedGame.__init__`
does when `get_policy` fails to load an agent (game.py lines 635-641). -/
def ctorFail : Nat → Option (OCGame Nat) := fun _ => none

/-- A baseline concrete game object: freshly constructed, inactive, no
participants. -/
def gBase : OCGame Nat :=
  { id := 0, players := [], spectators := [], pending_actions := [],
    isActive := false, max_players := 2, human_players := [],
    npc_players := [], npc_policy_ids := [], npc_state_queues := [],
    score := 0, max_time := 30, start_time := 0, curr_tick := 0,
    ticks_per_ai_action := 1, layouts := ["l1"], curr_layout := "",
    state := 0 }

/-- A game whose only remaining participant is one spectator. -/
def gSpectatorOnly : OCGame Nat := { gBase with spectators := ["obs"] }

/-- An active two-human game with two layouts remaining. -/
def gTwoHumans : OCGame Nat :=
  { gBase with
      isActive := true,
      players := [Slot.player "a", Slot.player "b"],
      human_players := ["a", "b"],
      pending_actions :=
        [some { maxsize := -1, items := [] },
         some { maxsize := -1, items := [] }],
      layouts := ["l1", "l2"] }

/-- An active two-human game in mid-layout with one queued action for the
first player. -/
def gRunning : OCGame Nat :=
  { gTwoHumans with
      pending_actions :=
        [some { maxsize := -1, items := [Act.north] },
         some { maxsize := -1, items := [] }] }

/-- A game whose two occupied slots are both automated and that has no
spectators. -/
def gAllNpc : OCGame Nat :=
  { gBase with
      players := [Slot.player "StayAI_0", Slot.player "StayAI_1"],
      npc_players := ["StayAI_0", "StayAI_1"],
      npc_policy_ids := ["StayAI_0", "StayAI_1"],
      npc_state_queues := [("StayAI_0", []), ("StayAI_1", [])],
      pending_actions :=
        [some { maxsize := 1, items := [] },
         some { maxsize := 1, items := [] }] }

/-- An active one-human game whose bounded action queue (maxsize 1) is
already full. -/
def gFullQ : OCGame Nat :=
  { gBase with
      isActive := true,
      max_players := 1,
      players := [Slot.player "h"],
      human_players := ["h"],
      pending_actions := [some { maxsize := 1, items := [Act.stay] }] }

/-- A registered one-player game used to exercise `cleanup_game`. -/
def g4 : OCGame Nat := { gBase with id := 7, players := [Slot.player "u"] }

/-- Server state in which game 7 is live (not free). -/
def s4ok : ServerState Nat :=
  { free_ids := [], free_map := [(7, false)], games := [(7, g4)],
    active_games := [], user_rooms := [("u", 7)] }

/-- Server state in which id 7 is already marked free. -/
def s4bad : ServerState Nat := { s4ok with free_map := [(7, true)] }

/-- A game with one player in slot 0, one EMPTY slot and one spectator. -/
def gC8 : OCGame Nat :=
  { gBase with
      players := [Slot.player "pl", Slot.empty],
      spectators := ["sp"],
      human_players := ["pl"] }

/-- Server state in which game 0 is live and active, with its player and
its spectator both present in the participant-room map. -/
def sC8 : ServerState Nat :=
  { free_ids := [], free_map := [(0, false), (1, true)],
    games := [(0, gC8)], active_games := [0],
    user_rooms := [("pl", 0), ("sp", 0)] }

/-- Server state with exactly one free id left. -/
def sC2 : ServerState Nat :=
  { free_ids := [0], free_map := [(0, true)], games := [],
    active_games := [], user_rooms := [] }

/-- Server state with the id pool exhausted. -/
def sC2x : ServerState Nat := { sC2 with free_ids := [] }

/-- Human roster for the joint-action draining example. -/
def humansW : List String := ["h"]

/-- A human-held slot with an empty queue next to an automated slot with
one queued decision. -/
def pairsW : List (Slot × Option (BQueue Act)) :=
  [(Slot.player "h", some { maxsize := -1, items := [] }),
   (Slot.player "StayAI_1", some { maxsize := 1, items := [Act.north] })]

/-- The joint action `assembleJoint` produces for `pairsW`. -/
def jaW : List Act := [Act.stay, Act.north]

/-- The drained queues `assembleJoint` produces for `pairsW`. -/
def qsW : List (Option (BQueue Act)) :=
  [some { maxsize := -1, items := [] }, some { maxsize := 1, items := [] }]

/-! Helper lemmas shared by the claim theorems. -/

/-- An integer score never reaches the float infinity it is compared
against in `OvercookedTutorial.is_finished`. -/
theorem scoreGeInf_eq_false (s : Int) : scoreGeInf s = false := by
  simp only [scoreGeInf, decide_eq_false_iff_not]
  intro h
  exact (WithTop.coe_ne_top (a := s)) (top_le_iff.mp h)

/-- A slot that is ready to drain yields exactly the drained action and
queue described by `slotDrained`. -/
theorem drainOne_of_ready (humans : List String)
    (p : Slot × Option (BQueue Act)) (hp : slotReady humans p = true) :
    ∃ a q2, drainOne humans p = some (a, q2) ∧ slotDrained humans p a q2 := by
  obtain ⟨slot, qo⟩ := p
  cases slot with
  | empty => simp [slotReady] at hp
  | player pid =>
    cases qo with
    | none => simp [slotReady] at hp
    | some q =>
      by_cases hh : pid ∈ humans
      · have hhc : humans.contains pid = true := by simpa using hh
        cases hq : q.items with
        | nil =>
          refine ⟨Act.stay, some q, ?_, ?_⟩
          · simp [drainOne, hhc, hh, bqGet, hq]
          · simp [slotDrained, hhc, hq, hh]
        | cons x rest =>
          refine ⟨x, some { maxsize := q.maxsize, items := rest }, ?_, ?_⟩
          · simp [drainOne, hhc, hh, bqGet, hq]
          · simp [slotDrained, hhc, hq, hh]
      · have hhc : humans.contains pid = false := by simpa using hh
        have hne : q.items ≠ [] := by
          simpa [slotReady, hh] using hp
        cases hq : q.items with
        | nil => exact absurd hq hne
        | cons x rest =>
          refine ⟨x, some { maxsize := q.maxsize, items := rest }, ?_, ?_⟩
          · simp [drainOne, hhc, hh, bqGet, hq]
          · simp [slotDrained, hhc, hq, hh]

/-! Claim theorems. -/

/-- C1 (counterexample): the state hand-off channel does not have single-slot
overwrite semantics.  Pushing state 1 and then state 2 before the worker
consumes anything, the worker reads state 2 first but then reads the
superseded state 1 on its next iteration, so a stale state is read by the
Policy Provider. -/
theorem c1_stale_state_read_counterexample :
    lifoReads 2 (npcStatePut (npcStatePut ([] : List Nat) 1) 2) = [2, 1]
    ∧ ((lifoReads 2 (npcStatePut (npcStatePut ([] : List Nat) 1) 2)
        == [2]) = false)
    ∧ (lifoReads 2 (npcStatePut (npcStatePut ([] : List Nat) 1) 2)).contains 1
        = true := by decide

/-- C1 (amended): the hand-off channel is an unbounded last-in-first-out
stack.  When the tick loop pushes a second state before the worker has
consumed the first, the worker reads the newest state first, but the
superseded state remains in the channel and is read on the following
iteration. -/
theorem c1_state_channel_is_lifo {σ : Type} (q : List σ) (s1 s2 : σ) :
    lifoReads 2 (npcStatePut (npcStatePut q s1) s2) = [s2, s1] := rfl

/-- C2 (code evaluated at the failing input): when the session constructor
raises with one id free, `try_create_game` reports the failure (so
`creation_failed` is emitted) but has already removed the id from the
free pool and never puts it back, so the free-ID pool is mutated; the
allocator-exhausted branch, by contrast, really leaves all state
unchanged. -/
theorem c2_ctor_failure_mutates_free_pool :
    try_create_game ctorFail sC2 =
      ({ free_ids := [], free_map := [(0, true)], games := [],
         active_games := [], user_rooms := [] }, CreateResult.ctorError)
    ∧ creationFailedEmitted (try_create_game ctorFail sC2).2 = true
    ∧ (((try_create_game ctorFail sC2).1.free_ids == sC2.free_ids) = false)
    ∧ ((try_create_game ctorFail sC2).1.free_map == sC2.free_map) = true
    ∧ try_create_game ctorFail sC2x = (sC2x, CreateResult.capacityError)
    ∧ creationFailedEmitted (try_create_game ctorFail sC2x).2 = true := by
  decide

/-- C3 (counterexample): a session with no players but one remaining
spectator is considered empty by both `Game.is_empty` and
`OvercookedGame.is_empty`, contradicting the claim that a session with at
least one spectator is not empty. -/
theorem c3_spectator_only_is_empty_counterexample :
    base_is_empty gSpectatorOnly = true
    ∧ oc_is_empty gSpectatorOnly = true
    ∧ gSpectatorOnly.spectators.isEmpty = false := by decide

/-- C3 (amended): `Game.is_empty` is true exactly when no players remain,
ignoring spectators; `OvercookedGame.is_empty` is true exactly when no
players remain or when both the spectator set and the human-player set
are empty. -/
theorem c3_is_empty_characterisation {σ : Type} (g : OCGame σ) :
    (base_is_empty g = true ↔ num_players g = 0)
    ∧ (oc_is_empty g = true ↔
        (num_players g = 0 ∨ (g.spectators = [] ∧ g.human_players = []))) := by
  constructor
  · simp [base_is_empty]
  · simp [oc_is_empty, base_is_empty, List.isEmpty_iff]

/-- C3 (witness): the characterisation evaluated on the spectator-only
game. -/
theorem c3_is_empty_characterisation_witness :
    num_players gSpectatorOnly = 0
    ∨ (gSpectatorOnly.spectators = [] ∧ gSpectatorOnly.human_players = []) :=
  (c3_is_empty_characterisation gSpectatorOnly).2.mp (by decide)

/-- C4: `cleanup_game` raises (returns `none`) whenever the game's id is
already marked free in the FreeMap, and it succeeds exactly when the id
is currently marked not-free. -/
theorem c4_release_fails_on_already_free {σ : Type} (s : ServerState σ)
    (g : OCGame σ) :
    (fmLookup s.free_map g.id = some true → cleanup_game s g = none)
    ∧ ((cleanup_game s g).isSome = true ↔
        fmLookup s.free_map g.id = some false) := by
  cases h : fmLookup s.free_map g.id with
  | none => simp [cleanup_game, h]
  | some b => cases b <;> simp [cleanup_game, h]

/-- C4 (witness): the double-free of id 7 raises; releasing it while it is
marked not-free succeeds. -/
theorem c4_release_fails_on_already_free_witness :
    cleanup_game s4bad g4 = none ∧ (cleanup_game s4ok g4).isSome = true :=
  ⟨(c4_release_fails_on_already_free s4bad g4).1 (by decide),
   (c4_release_fails_on_already_free s4ok g4).2.mpr (by decide)⟩

/-- C6 (code evaluated at the failing input): on an active game, enqueueing
into a participant's full bounded queue blocks the caller (`Queue.put`
runs with its default `block=True` and never raises `Full`), instead of
silently dropping the action; the inactive-session and no-slot cases are
silently ignored as claimed. -/
theorem c6_enqueue_blocks_on_full_queue :
    base_enqueue_action gFullQ "h" Act.north = (gFullQ, EnqueueOutcome.blocked)
    ∧ oc_enqueue_action gFullQ "h" "UP" = (gFullQ, EnqueueOutcome.blocked)
    ∧ base_enqueue_action { gFullQ with isActive := false } "h" Act.north
        = ({ gFullQ with isActive := false }, EnqueueOutcome.ignored)
    ∧ base_enqueue_action gFullQ "stranger" Act.north
        = (gFullQ, EnqueueOutcome.ignored) := by decide

/-- C8 (code evaluated at the failing input): cleaning up an active game
with one player and one spectator frees the id, returns it to the pool,
removes the game from the registry and the active set, and evicts the
player from the participant-room map, but leaves the spectator mapped to
the now-freed room id. -/
theorem c8_cleanup_leaves_spectator_mapped :
    cleanup_game sC8 gC8 =
      some { free_ids := [0], free_map := [(0, true), (1, true)],
             games := [], active_games := [],
             user_rooms := [("sp", 0)] }
    ∧ (cleanup_game sC8 gC8).map
        (fun s2 => roomsLookup s2.user_rooms "sp") = some (some 0)
    ∧ (cleanup_game sC8 gC8).map
        (fun s2 => roomsLookup s2.user_rooms "pl") = some none := by decide

/-- C9: `OvercookedGame.is_ready` holds only when the configured number of
player slots is occupied and at least one human participant remains as
player or spectator; a session whose participants are all automated is
never ready. -/
theorem c9_ready_needs_full_and_human {σ : Type} (g : OCGame σ) :
    (oc_is_ready g = true →
      g.max_players ≤ num_players g
      ∧ (g.human_players.isEmpty = false ∨ g.spectators.isEmpty = false))
    ∧ ((g.human_players = [] ∧ g.spectators = []) → oc_is_ready g = false) := by
  constructor
  · intro h
    simp [oc_is_ready, is_full, oc_is_empty, base_is_empty,
      List.isEmpty_iff] at h
    obtain ⟨h1, _, h3⟩ := h
    refine ⟨h1, ?_⟩
    rcases h3 with hs | hh
    · right
      simpa [List.isEmpty_iff] using hs
    · left
      simpa [List.isEmpty_iff] using hh
  · rintro ⟨h1, h2⟩
    simp [oc_is_ready, oc_is_empty, h1, h2]

/-- C9 (witness): a full two-human game satisfies the necessary condition;
the all-automated game is not ready. -/
theorem c9_ready_needs_full_and_human_witness :
    (gTwoHumans.max_players ≤ num_players gTwoHumans
      ∧ (gTwoHumans.human_players.isEmpty = false
          ∨ gTwoHumans.spectators.isEmpty = false))
    ∧ oc_is_ready gAllNpc = false :=
  ⟨(c9_ready_needs_full_and_human gTwoHumans).1 (by decide),
   (c9_ready_needs_full_and_human gAllNpc).2 (by decide)⟩

/-- C5: when every slot can be drained (its holder is human, or it is an
automated slot that already has a decision queued, so the blocking get
returns), the joint action assembled by `apply_actions` gives every
human-held slot at most one dequeued action without blocking (`STAY` when
nothing is queued, with the queue untouched) and every automated-held
slot exactly the one action at the front of its queue. -/
theorem c5_joint_action_draining (humans : List String)
    (pairs : List (Slot × Option (BQueue Act)))
    (h : ∀ p ∈ pairs, slotReady humans p = true) :
    (assembleJoint humans pairs).isSome = true
    ∧ ∀ ja qs, assembleJoint humans pairs = some (ja, qs) →
        ja.length = pairs.length ∧ qs.length = pairs.length
        ∧ ∀ i p a q2, pairs.get? i = some p → ja.get? i = some a →
            qs.get? i = some q2 → slotDrained humans p a q2 := by
  induction pairs with
  | nil =>
    refine ⟨by simp [assembleJoint], ?_⟩
    intro ja qs hEq
    simp only [assembleJoint, Option.some.injEq, Prod.mk.injEq] at hEq
    obtain ⟨h1, h2⟩ := hEq
    subst h1; subst h2
    refine ⟨rfl, rfl, ?_⟩
    intro i p a q2 hp _ _
    simp at hp
  | cons p0 rest ih =>
    have hp0 := h p0 (by simp)
    have hrest : ∀ q ∈ rest, slotReady humans q = true :=
      fun q hq => h q (by simp [hq])
    obtain ⟨a0, q0, hd, hsd⟩ := drainOne_of_ready humans p0 hp0
    obtain ⟨ihSome, ihAll⟩ := ih hrest
    cases hr : assembleJoint humans rest with
    | none => rw [hr] at ihSome; simp at ihSome
    | some pr =>
      obtain ⟨ja1, qs1⟩ := pr
      refine ⟨by simp [assembleJoint, hd, hr], ?_⟩
      intro ja qs hEq
      simp only [assembleJoint, hd, hr, Option.some.injEq, Prod.mk.injEq]
        at hEq
      obtain ⟨hja, hqs⟩ := hEq
      subst hja; subst hqs
      obtain ⟨hl1, hl2, hIdx⟩ := ihAll ja1 qs1 hr
      refine ⟨by simp [hl1], by simp [hl2], ?_⟩
      intro i pp aa qq hp1 hp2 hp3
      cases i with
      | zero =>
        simp only [List.get?_cons_zero, Option.some.injEq] at hp1 hp2 hp3
        subst hp1; subst hp2; subst hp3
        exact hsd
      | succ n =>
        simp only [List.get?_cons_succ] at hp1 hp2 hp3
        exact hIdx n pp aa qq hp1 hp2 hp3

/-- C5 (witness): draining the two-slot example, the human-held slot with
an empty queue defaults to `STAY` and keeps its queue, and the automated
slot contributes exactly the queued decision. -/
theorem c5_joint_action_draining_witness :
    slotDrained humansW
      (Slot.player "h", some { maxsize := -1, items := [] })
      Act.stay (some { maxsize := -1, items := [] })
    ∧ slotDrained humansW
        (Slot.player "StayAI_1", some { maxsize := 1, items := [Act.north] })
        Act.north (some { maxsize := 1, items := [] }) := by
  have hmain :=
    (c5_joint_action_draining humansW pairsW (by decide)).2 jaW qsW (by decide)
  exact ⟨hmain.2.2 0 _ _ _ rfl rfl rfl, hmain.2.2 1 _ _ _ rfl rfl rfl⟩

/-- C7 (counterexample): `tick()` on an inactive Overcooked session is not
a no-op.  It returns the Inactive status, but `OvercookedGame.tick`
increments the tick counter before deferring to the base method, so the
session object changes. -/
theorem c7_inactive_tick_not_noop_counterexample :
    oc_tick engEx stEx 0 gBase = some ⟨Status.inactive, bumpTick gBase, 0⟩
    ∧ ((bumpTick gBase == gBase) = false)
    ∧ (bumpTick gBase).curr_tick = 1
    ∧ gBase.curr_tick = 0 := by decide

/-- C7 (amended): `tick()` on an inactive session returns the Inactive
status without invoking the engine, changing nothing but the tick
counter; on an active session that needs a reset it performs the internal
reset and returns the Resetting status; otherwise it invokes the
environment engine exactly once with the assembled joint action, installs
the resulting state and drained queues, adds the summed reward to the
score, and returns Done exactly when the end condition holds on the
resulting session, else Active. -/
theorem c7_tick_behaviour {σ : Type} (engine : σ → List Act → σ × List Int)
    (startState : String → σ) (now : Int) (g : OCGame σ) :
    (g.isActive = false →
      oc_tick engine startState now g = some ⟨Status.inactive, bumpTick g, 0⟩)
    ∧ (g.isActive = true → oc_needs_reset now (bumpTick g) = true →
      oc_tick engine startState now g =
        (oc_reset startState now (bumpTick g)).map
          (fun g2 => ⟨Status.reset, g2, 0⟩))
    ∧ (g.isActive = true → oc_needs_reset now (bumpTick g) = false →
      ∀ ja qs,
        assembleJoint g.human_players (g.players.zip g.pending_actions)
          = some (ja, qs) →
        (oc_tick engine startState now g).map (fun r => r.engineCalls)
            = some 1
        ∧ (oc_tick engine startState now g).map (fun r => r.game.state)
            = some (engine g.state ja).1
        ∧ (oc_tick engine startState now g).map (fun r => r.game.score)
            = some (g.score + ((engine g.state ja).2).sum)
        ∧ (oc_tick engine startState now g).map
            (fun r => r.game.pending_actions) = some qs
        ∧ (((oc_tick engine startState now g).map (fun r => r.status)
            == some Status.inactive) = false)
        ∧ (((oc_tick engine startState now g).map (fun r => r.status)
            == some Status.reset) = false)
        ∧ ((oc_tick engine startState now g).map (fun r => r.status)
              = some Status.done
            ↔ (oc_tick engine startState now g).map
                (fun r => oc_is_finished now r.game) = some true)) := by
  refine ⟨?_, ?_, ?_⟩
  · intro hA
    have hb : (bumpTick g).isActive = false := hA
    simp [oc_tick, hb]
  · intro hA hR
    have hb : (bumpTick g).isActive = true := hA
    simp [oc_tick, hb, hR]
  · intro hA hR ja qs hJ
    have hb : (bumpTick g).isActive = true := hA
    have hJ2 : assembleJoint (bumpTick g).human_players
        ((bumpTick g).players.zip (bumpTick g).pending_actions)
        = some (ja, qs) := hJ
    have key : oc_tick engine startState now g =
        (oc_apply_actions engine (bumpTick g)).map (fun pr =>
          ⟨if oc_is_finished now pr.1 then Status.done else Status.active,
           pr.1, 1⟩) := by
      simp [oc_tick, hb, hR]
    cases hres : oc_apply_actions engine (bumpTick g) with
    | none => simp [oc_apply_actions, hJ2] at hres
    | some pr =>
      obtain ⟨gN, rs⟩ := pr
      have hres2 := hres
      rw [oc_apply_actions, hJ2] at hres2
      simp only [Option.some.injEq, Prod.mk.injEq] at hres2
      obtain ⟨hgN, hrs⟩ := hres2
      rw [key, hres]
      refine ⟨rfl, ?_, ?_, ?_, ?_, ?_, ?_⟩
      · show some gN.state = some (engine g.state ja).1
        rw [← hgN]
        rfl
      · show some gN.score = some (g.score + ((engine g.state ja).2).sum)
        rw [← hgN]
        rfl
      · show some gN.pending_actions = some qs
        rw [← hgN]
      · show ((some (if oc_is_finished now gN then Status.done
            else Status.active) == some Status.inactive) = false)
        cases hf : oc_is_finished now gN <;> simp [hf]
      · show ((some (if oc_is_finished now gN then Status.done
            else Status.active) == some Status.reset) = false)
        cases hf : oc_is_finished now gN <;> simp [hf]
      · show (some (if oc_is_finished now gN then Status.done
              else Status.active) = some Status.done
            ↔ some (oc_is_finished now gN) = some true)
        cases hf : oc_is_finished now gN <;> simp [hf]

/-- C7 (witness): the three tick cases evaluated on concrete sessions: an
inactive game, an active two-human game past its layout time (reset), and
an active two-human game in mid-layout (normal step with one engine
call). -/
theorem c7_tick_behaviour_witness :
    oc_tick engEx stEx 0 gBase = some ⟨Status.inactive, bumpTick gBase, 0⟩
    ∧ oc_tick engEx stEx 100 gTwoHumans =
        (oc_reset stEx 100 (bumpTick gTwoHumans)).map
          (fun g2 => ⟨Status.reset, g2, 0⟩)
    ∧ ((oc_tick engEx stEx 0 gRunning).map (fun r => r.engineCalls) = some 1
      ∧ (oc_tick engEx stEx 0 gRunning).map (fun r => r.game.state)
          = some (engEx gRunning.state [Act.north, Act.stay]).1
      ∧ (oc_tick engEx stEx 0 gRunning).map (fun r => r.game.score)
          = some (gRunning.score
              + ((engEx gRunning.state [Act.north, Act.stay]).2).sum)
      ∧ (oc_tick engEx stEx 0 gRunning).map (fun r => r.game.pending_actions)
          = some [some { maxsize := -1, items := [] },
                  some { maxsize := -1, items := [] }]
      ∧ (((oc_tick engEx stEx 0 gRunning).map (fun r => r.status)
          == some Status.inactive) = false)
      ∧ (((oc_tick engEx stEx 0 gRunning).map (fun r => r.status)
          == some Status.reset) = false)
      ∧ ((oc_tick engEx stEx 0 gRunning).map (fun r => r.status)
            = some Status.done
          ↔ (oc_tick engEx stEx 0 gRunning).map
              (fun r => oc_is_finished 0 r.game) = some true)) :=
  ⟨(c7_tick_behaviour engEx stEx 0 gBase).1 rfl,
   (c7_tick_behaviour engEx stEx 100 gTwoHumans).2.1 rfl (by decide),
   (c7_tick_behaviour engEx stEx 0 gRunning).2.2 rfl (by decide)
     [Act.north, Act.stay]
     [some { maxsize := -1, items := [] },
      some { maxsize := -1, items := [] }]
     (by decide)⟩

/-- C10: a tutorial session is never finished (its end condition compares
the integer score against the float infinity), and consequently a
tutorial tick never returns the Done status, whatever the engine, the
clock and the session state. -/
theorem c10_tutorial_never_done {σ : Type}
    (engine : σ → List Act → σ × List Int) (startState : String → σ)
    (now : Int) (t : TutGame σ) :
    tut_is_finished t.base = false
    ∧ (((tut_tick engine startState now t).map (fun r => r.status)
        == some Status.done) = false) := by
  have hfin : ∀ b : OCGame σ, tut_is_finished b = false := by
    intro b
    simp [tut_is_finished, scoreGeInf_eq_false]
  refine ⟨hfin t.base, ?_⟩
  by_cases hA : (bumpTick t.base).isActive = false
  · simp [tut_tick, hA]
  · have hA2 : (bumpTick t.base).isActive = true := by
      cases h : (bumpTick t.base).isActive
      · exact absurd h hA
      · rfl
    by_cases hN : tut_needs_reset { t with base := bumpTick t.base } = true
    · cases hRes : tut_reset startState now
          { t with base := bumpTick t.base } with
      | none => simp [tut_tick, hA2, hN, hRes]
      | some t2 => simp [tut_tick, hA2, hN, hRes]
    · have hN2 : tut_needs_reset { t with base := bumpTick t.base }
          = false := by
        cases h : tut_needs_reset { t with base := bumpTick t.base }
        · rfl
        · exact absurd h hN
      cases hAp : tut_apply_actions engine
          { t with base := bumpTick t.base } with
      | none => simp [tut_tick, hA2, hN2, hAp]
      | some t2 => simp [tut_tick, hA2, hN2, hAp, hfin]

end OvercookedServer
